import Mathlib

/-!
# Verification of the autodiff dual-number library

A shallow embedding of the two forward-mode automatic-differentiation
variants of the repository:

* the eager dual-number class `Dual` (from `dual.h`, namespace `dual`),
  whose operators compute value and derivative immediately;
* the lazy expression-template variant (from `dual2.h`, namespace `dual2`):
  the storage class `Dual2` plus the expression-node classes
  `Add, Subtract, Multiply, Divide, Sine, Cosine, Exponential, Logarithm,
  Power, Absolute`, embedded here as the inductive `Expr` (operand values
  resolved at the leaves) and, for the claims about state, as the
  reference-based `ExprR` evaluated against an environment.

The numeric field `T` of the C++ templates is a type parameter; the
elementary scalar functions the code calls on `T` (`sin`, `cos`, `exp`,
`log`, `pow`, `abs` — overloads supplied by the scalar type) are bundled
as an abstract `ScalarOps T`.  Every derivative formula below is
transcribed from the corresponding C++ member function.
-/

namespace Autodiff

/-- The elementary scalar functions that the C++ code calls on the
underlying numeric type `T` (the `<cmath>` overloads for `double`).
They are parameters of the embedding, exactly as `T` is a template
parameter of the source. -/
structure ScalarOps (T : Type) where
  sin : T → T
  cos : T → T
  exp : T → T
  log : T → T
  pow : T → T → T
  abs : T → T

/-! ## The eager variant (`dual.h`, class `dual::Dual<T>`) -/

/-- The eager dual number: the pair of the `value` and `derivative`
members of `dual::Dual<T>`.  The two-argument structure constructor
`Dual.mk` is the value+derivative C++ constructor. -/
structure Dual (T : Type) where
  value : T
  derivative : T
  deriving DecidableEq, Repr

namespace Dual

variable {T : Type}

/-- The zero-argument constructor `Dual() : value(T(0)), derivative(T(0))`. -/
def init [Zero T] : Dual T := ⟨0, 0⟩

/-- The value-only constructor `Dual(_value) : value(_value), derivative(T(0))`. -/
def ofValue [Zero T] (v : T) : Dual T := ⟨v, 0⟩

/-- The copy constructor `Dual(const Dual& other)`. -/
def copy (other : Dual T) : Dual T := ⟨other.value, other.derivative⟩

/-- The accessor `v()`. -/
def v (d : Dual T) : T := d.value

/-- The accessor `dv()`. -/
def dv (d : Dual T) : T := d.derivative

/-- The mutator `setValue(_value)`. -/
def setValue (d : Dual T) (x : T) : Dual T := { d with value := x }

/-- The mutator `setDerivative(_derivative)`. -/
def setDerivative (d : Dual T) (x : T) : Dual T := { d with derivative := x }

/-- `operator+`: componentwise. -/
def add [Add T] (a other : Dual T) : Dual T :=
  ⟨a.value + other.value, a.derivative + other.derivative⟩

/-- `operator-`: componentwise. -/
def sub [Sub T] (a other : Dual T) : Dual T :=
  ⟨a.value - other.value, a.derivative - other.derivative⟩

/-- `operator*`: the product rule, exactly as written in the source. -/
def mul [Mul T] [Add T] (a other : Dual T) : Dual T :=
  ⟨a.value * other.value, a.value * other.derivative + a.derivative * other.value⟩

/-- `operator/`: the quotient rule, exactly as written in the source. -/
def div [Field T] (a other : Dual T) : Dual T :=
  ⟨a.value / other.value,
   (a.derivative * other.value - a.value * other.derivative) / (other.value * other.value)⟩

/-- The friend function `sin(x1)`. -/
def dsin [Mul T] (S : ScalarOps T) (x1 : Dual T) : Dual T :=
  ⟨S.sin x1.value, x1.derivative * S.cos x1.value⟩

/-- The friend function `cos(x1)`. -/
def dcos [Mul T] [Neg T] (S : ScalarOps T) (x1 : Dual T) : Dual T :=
  ⟨S.cos x1.value, -x1.derivative * S.sin x1.value⟩

/-- The friend function `exp(x1)`. -/
def dexp [Mul T] (S : ScalarOps T) (x1 : Dual T) : Dual T :=
  ⟨S.exp x1.value, x1.derivative * S.exp x1.value⟩

/-- The friend function `log(x1)`. -/
def dlog [Div T] (S : ScalarOps T) (x1 : Dual T) : Dual T :=
  ⟨S.log x1.value, x1.derivative / x1.value⟩

/-- The friend function `pow(x1, k)`: the scalar exponent `k` is not
differentiated; the derivative is `k * pow(x1.value, k-1) * x1.derivative`,
exactly as written in the source. -/
def dpow [Field T] (S : ScalarOps T) (x1 : Dual T) (k : T) : Dual T :=
  ⟨S.pow x1.value k, k * S.pow x1.value (k - 1) * x1.derivative⟩

/-- The friend function `abs(x1)`: derivative `x1.derivative * x1.value / abs(x1.value)`. -/
def dabs [Mul T] [Div T] (S : ScalarOps T) (x1 : Dual T) : Dual T :=
  ⟨S.abs x1.value, x1.derivative * x1.value / S.abs x1.value⟩

/-- The stream inserter `operator<<`: appends
`"(" << value << ", " << derivative << ")"` to the stream contents `os`,
given the scalar formatting `emit` of the underlying stream. -/
def ostreamInsert (emit : T → String) (os : String) (num : Dual T) : String :=
  os ++ "(" ++ emit num.value ++ ", " ++ emit num.derivative ++ ")"

end Dual

/-! ## The lazy variant's storage class (`dual2.h`, class `dual2::Dual2<T>`) -/

/-- The storage class `dual2::Dual2<T>`: same two members as the eager class. -/
structure Dual2 (T : Type) where
  value : T
  derivative : T
  deriving DecidableEq, Repr

namespace Dual2

variable {T : Type}

/-- The zero-argument constructor `Dual2() : value(T(0)), derivative(T(0))`. -/
def init [Zero T] : Dual2 T := ⟨0, 0⟩

/-- The value-only constructor `Dual2(_value)`. -/
def ofValue [Zero T] (v : T) : Dual2 T := ⟨v, 0⟩

/-- The copy constructor `Dual2(const Dual2& other)`. -/
def copy (other : Dual2 T) : Dual2 T := ⟨other.value, other.derivative⟩

/-- The accessor `v()`. -/
def v (d : Dual2 T) : T := d.value

/-- The accessor `dv()`. -/
def dv (d : Dual2 T) : T := d.derivative

/-- The mutator `setValue(_value)`. -/
def setValue (d : Dual2 T) (x : T) : Dual2 T := { d with value := x }

/-- The mutator `setDerivative(_derivative)`. -/
def setDerivative (d : Dual2 T) (x : T) : Dual2 T := { d with derivative := x }

/-- The stream inserter `operator<<` of `Dual2`, identical in shape to the
eager one. -/
def ostreamInsert (emit : T → String) (os : String) (num : Dual2 T) : String :=
  os ++ "(" ++ emit num.value ++ ", " ++ emit num.derivative ++ ")"

end Dual2

/-! ## The lazy expression-node hierarchy (`dual2.h`)

The C++ expression templates build, at compile time, a tree whose inner
nodes are `Add, Subtract, Multiply, Divide, Sine, Cosine, Exponential,
Logarithm, Power, Absolute` and whose leaves are references to `Dual2`
objects.  `Expr` is that tree with the leaf references resolved to the
operand values they denote at query time (the operands do not change
during a query).  `Expr.v` and `Expr.dv` transcribe each node's `v()` and
`dv()` member verbatim; in particular `Power::dv()` is transcribed with
the literal parenthesisation of the source,
`k * pow(r.v(), k - value_type(1) * r.dv())`. -/

/-- The lazy expression tree of `dual2.h`: one constructor per expression
node class, with `Dual2` operands at the leaves.  `power` also stores the
held scalar exponent `k`. -/
inductive Expr (T : Type) where
  | leaf : Dual2 T → Expr T
  | add : Expr T → Expr T → Expr T
  | subt : Expr T → Expr T → Expr T
  | mul : Expr T → Expr T → Expr T
  | div : Expr T → Expr T → Expr T
  | sine : Expr T → Expr T
  | cosine : Expr T → Expr T
  | expo : Expr T → Expr T
  | loga : Expr T → Expr T
  | power : Expr T → T → Expr T
  | absol : Expr T → Expr T
  deriving DecidableEq, Repr

namespace Expr

variable {T : Type}

/-- The `v()` query of each expression node, computed recursively from the
operands on every call, exactly as in `dual2.h`. -/
def v [Field T] (S : ScalarOps T) : Expr T → T
  | leaf d => d.value
  | add l r => v S l + v S r
  | subt l r => v S l - v S r
  | mul l r => v S l * v S r
  | div l r => v S l / v S r
  | sine r => S.sin (v S r)
  | cosine r => S.cos (v S r)
  | expo r => S.exp (v S r)
  | loga r => S.log (v S r)
  | power r k => S.pow (v S r) k
  | absol r => S.abs (v S r)

/-- The `dv()` query of each expression node, computed recursively from
the operands on every call, exactly as in `dual2.h`.  The `power` case is
the literal source expression `k * pow(r.v(), k - value_type(1) * r.dv())`:
the `* r.dv()` sits inside the exponent. -/
def dv [Field T] (S : ScalarOps T) : Expr T → T
  | leaf d => d.derivative
  | add l r => dv S l + dv S r
  | subt l r => dv S l - dv S r
  | mul l r => v S l * dv S r + dv S l * v S r
  | div l r => (dv S l * v S r - v S l * dv S r) / (v S r * v S r)
  | sine r => dv S r * S.cos (v S r)
  | cosine r => -dv S r * S.sin (v S r)
  | expo r => dv S r * S.exp (v S r)
  | loga r => dv S r / v S r
  | power r k => k * S.pow (v S r) (k - 1 * dv S r)
  | absol r => dv S r * v S r / S.abs (v S r)

/-- Evaluation of the same expression tree through the eager variant: each
node is replaced by the corresponding `dual::Dual` operator or friend
function, applied immediately. -/
def evalEager [Field T] (S : ScalarOps T) : Expr T → Dual T
  | leaf d => ⟨d.value, d.derivative⟩
  | add l r => Dual.add (evalEager S l) (evalEager S r)
  | subt l r => Dual.sub (evalEager S l) (evalEager S r)
  | mul l r => Dual.mul (evalEager S l) (evalEager S r)
  | div l r => Dual.div (evalEager S l) (evalEager S r)
  | sine r => Dual.dsin S (evalEager S r)
  | cosine r => Dual.dcos S (evalEager S r)
  | expo r => Dual.dexp S (evalEager S r)
  | loga r => Dual.dlog S (evalEager S r)
  | power r k => Dual.dpow S (evalEager S r) k
  | absol r => Dual.dabs S (evalEager S r)

/-- `true` iff the expression contains no `Power` node. -/
def powFree : Expr T → Bool
  | leaf _ => true
  | add l r => powFree l && powFree r
  | subt l r => powFree l && powFree r
  | mul l r => powFree l && powFree r
  | div l r => powFree l && powFree r
  | sine r => powFree r
  | cosine r => powFree r
  | expo r => powFree r
  | loga r => powFree r
  | power _ _ => false
  | absol r => powFree r

end Expr

/-! ## Reference-based model of the lazy nodes, for the claims about state

The C++ nodes hold references to their operands and read the operands'
current state on every query.  To reason about mutation (or its absence)
we model the referenced `Dual2` objects as an environment indexed by `Nat`
and thread the environment through every query in the order the source
reads its operands: a query returns its result together with the
environment it leaves behind. -/

/-- The referenced `Dual2<T>` objects, addressed by index. -/
abbrev Env (T : Type) := Nat → Dual2 T

/-- The lazy expression tree with operand references left symbolic: a leaf
is the index of the `Dual2` object it refers to. -/
inductive ExprR (T : Type) where
  | ref : Nat → ExprR T
  | add : ExprR T → ExprR T → ExprR T
  | subt : ExprR T → ExprR T → ExprR T
  | mul : ExprR T → ExprR T → ExprR T
  | div : ExprR T → ExprR T → ExprR T
  | sine : ExprR T → ExprR T
  | cosine : ExprR T → ExprR T
  | expo : ExprR T → ExprR T
  | loga : ExprR T → ExprR T
  | power : ExprR T → T → ExprR T
  | absol : ExprR T → ExprR T

namespace ExprR

variable {T : Type}

/-- The `v()` query in state-passing form: every operand read goes through
the environment and returns the environment it results in, so any hidden
mutation performed by a query would be visible in the returned
environment.  The computations are the ones of `dual2.h`. -/
def vM [Field T] (S : ScalarOps T) : ExprR T → Env T → T × Env T
  | ref i, env => ((env i).value, env)
  | add l r, env =>
      let p := vM S l env
      let q := vM S r p.2
      (p.1 + q.1, q.2)
  | subt l r, env =>
      let p := vM S l env
      let q := vM S r p.2
      (p.1 - q.1, q.2)
  | mul l r, env =>
      let p := vM S l env
      let q := vM S r p.2
      (p.1 * q.1, q.2)
  | div l r, env =>
      let p := vM S l env
      let q := vM S r p.2
      (p.1 / q.1, q.2)
  | sine r, env =>
      let p := vM S r env
      (S.sin p.1, p.2)
  | cosine r, env =>
      let p := vM S r env
      (S.cos p.1, p.2)
  | expo r, env =>
      let p := vM S r env
      (S.exp p.1, p.2)
  | loga r, env =>
      let p := vM S r env
      (S.log p.1, p.2)
  | power r k, env =>
      let p := vM S r env
      (S.pow p.1 k, p.2)
  | absol r, env =>
      let p := vM S r env
      (S.abs p.1, p.2)

/-- The `dv()` query in state-passing form, reading its operands in the
left-to-right order of each source expression. -/
def dvM [Field T] (S : ScalarOps T) : ExprR T → Env T → T × Env T
  | ref i, env => ((env i).derivative, env)
  | add l r, env =>
      let p := dvM S l env
      let q := dvM S r p.2
      (p.1 + q.1, q.2)
  | subt l r, env =>
      let p := dvM S l env
      let q := dvM S r p.2
      (p.1 - q.1, q.2)
  | mul l r, env =>
      let a := vM S l env
      let b := dvM S r a.2
      let c := dvM S l b.2
      let d := vM S r c.2
      (a.1 * b.1 + c.1 * d.1, d.2)
  | div l r, env =>
      let a := dvM S l env
      let b := vM S r a.2
      let c := vM S l b.2
      let d := dvM S r c.2
      let e := vM S r d.2
      let f := vM S r e.2
      ((a.1 * b.1 - c.1 * d.1) / (e.1 * f.1), f.2)
  | sine r, env =>
      let a := dvM S r env
      let b := vM S r a.2
      (a.1 * S.cos b.1, b.2)
  | cosine r, env =>
      let a := dvM S r env
      let b := vM S r a.2
      (-a.1 * S.sin b.1, b.2)
  | expo r, env =>
      let a := dvM S r env
      let b := vM S r a.2
      (a.1 * S.exp b.1, b.2)
  | loga r, env =>
      let a := dvM S r env
      let b := vM S r a.2
      (a.1 / b.1, b.2)
  | power r k, env =>
      let a := vM S r env
      let b := dvM S r a.2
      (k * S.pow a.1 (k - 1 * b.1), b.2)
  | absol r, env =>
      let a := dvM S r env
      let b := vM S r a.2
      let c := vM S r b.2
      (a.1 * b.1 / S.abs c.1, c.2)

end ExprR

/-- The assignment-from-expression `Dual2::operator=(const E& expr)`:
it executes `value = expr.v();` and then `derivative = expr.dv();`, so
when `expr` refers to the destination object itself the second query
already sees the updated value.  `i` is the index of the destination
object in the environment. -/
def assignExprR [Field T] (S : ScalarOps T) (i : Nat) (e : ExprR T) (env : Env T) : Env T :=
  let v1 := (ExprR.vM S e env).1
  let env1 : Env T := fun j => if j = i then ⟨v1, (env i).derivative⟩ else env j
  let d1 := (ExprR.dvM S e env1).1
  fun j => if j = i then ⟨v1, d1⟩ else env1 j

/-! ## A concrete scalar instantiation over `ℚ`

All concrete scenarios of the specification use integer or small decimal
inputs, and the only elementary functions they involve are `pow` (at
natural-number exponents) and `abs`; `ratOps` instantiates those two
exactly on `ℚ` and fills the transcendental slots, which no concrete
statement below uses, with the identity. -/

/-- Power on `ℚ`, agreeing with the real power function whenever the
exponent is an integer — which is the case in every concrete statement
below. -/
def ratPow (a b : ℚ) : ℚ := a ^ b.num

/-- The concrete scalar primitives over `ℚ` used for witnesses and
counterexamples. -/
def ratOps : ScalarOps ℚ where
  sin := fun a => a
  cos := fun a => a
  exp := fun a => a
  log := fun a => a
  pow := ratPow
  abs := fun a => |a|

/-- A concrete scalar formatter: it renders the two scalars of the
display scenario the way the C++ stream renders the corresponding
`double`s, which is all the display claim needs of it. -/
def emitW (q : ℚ) : String :=
  if q = 7.53 then "7.53" else if q = 2.99 then "2.99" else ""

/-! ## Theorems -/

/-- Claim C5: in both variants the zero-argument constructor yields `(0, 0)`,
the value-only constructor yields `(value, 0)` (the constant/seed
convention), the value+derivative constructor yields `(value, derivative)`,
and copy construction copies both fields. -/
theorem constructor_conventions {T : Type} [Zero T] (a d : T) (x : Dual T) (y : Dual2 T) :
    (Dual.init : Dual T).value = 0 ∧ (Dual.init : Dual T).derivative = 0 ∧
    (Dual.ofValue a).value = a ∧ (Dual.ofValue a).derivative = 0 ∧
    (Dual.mk a d).value = a ∧ (Dual.mk a d).derivative = d ∧
    Dual.copy x = x ∧
    (Dual2.init : Dual2 T).value = 0 ∧ (Dual2.init : Dual2 T).derivative = 0 ∧
    (Dual2.ofValue a).value = a ∧ (Dual2.ofValue a).derivative = 0 ∧
    (Dual2.mk a d).value = a ∧ (Dual2.mk a d).derivative = d ∧
    Dual2.copy y = y :=
  ⟨rfl, rfl, rfl, rfl, rfl, rfl, rfl, rfl, rfl, rfl, rfl, rfl, rfl, rfl⟩

/-- Claim C9: in both variants `setValue` changes only the value field and
`setDerivative` changes only the derivative field. -/
theorem setters_frame {T : Type} (x : Dual T) (y : Dual2 T) (a : T) :
    (x.setValue a).value = a ∧ (x.setValue a).derivative = x.derivative ∧
    (x.setDerivative a).derivative = a ∧ (x.setDerivative a).value = x.value ∧
    (y.setValue a).value = a ∧ (y.setValue a).derivative = y.derivative ∧
    (y.setDerivative a).derivative = a ∧ (y.setDerivative a).value = y.value :=
  ⟨rfl, rfl, rfl, rfl, rfl, rfl, rfl, rfl⟩

/-- Claim C4: in both variants multiplication returns
value `a.value * b.value` and derivative
`a.value * b.derivative + a.derivative * b.value` (the product rule). -/
theorem product_rule {T : Type} [Field T] (S : ScalarOps T)
    (a b : Dual T) (a2 b2 : Dual2 T) :
    (Dual.mul a b).value = a.value * b.value ∧
    (Dual.mul a b).derivative = a.value * b.derivative + a.derivative * b.value ∧
    Expr.v S (Expr.mul (Expr.leaf a2) (Expr.leaf b2)) = a2.value * b2.value ∧
    Expr.dv S (Expr.mul (Expr.leaf a2) (Expr.leaf b2)) =
      a2.value * b2.derivative + a2.derivative * b2.value :=
  ⟨rfl, rfl, rfl, rfl⟩

/-- Claim C3: in both variants, for operands whose denominator has nonzero
value, division returns value `a.value / b.value` and derivative
`(a.derivative * b.value - a.value * b.derivative) / b.value ^ 2`
(the quotient rule). -/
theorem quotient_rule {T : Type} [Field T] (S : ScalarOps T)
    (a b : Dual T) (a2 b2 : Dual2 T) (hb : b.value ≠ 0) (hb2 : b2.value ≠ 0) :
    (Dual.div a b).value = a.value / b.value ∧
    (Dual.div a b).derivative =
      (a.derivative * b.value - a.value * b.derivative) / b.value ^ 2 ∧
    Expr.v S (Expr.div (Expr.leaf a2) (Expr.leaf b2)) = a2.value / b2.value ∧
    Expr.dv S (Expr.div (Expr.leaf a2) (Expr.leaf b2)) =
      (a2.derivative * b2.value - a2.value * b2.derivative) / b2.value ^ 2 := by
  refine ⟨rfl, ?_, rfl, ?_⟩ <;> simp [Dual.div, Expr.dv, Expr.v, pow_two]

/-- Witness for C3 at the concrete inputs `a = (6, 10)`, `b = (3, 2)` of the
repository's division test (expected result `(2, 2)`). -/
theorem quotient_rule_witness :
    (Dual.mk (3 : ℚ) 2).value ≠ 0 ∧ (Dual2.mk (3 : ℚ) 2).value ≠ 0 ∧
    ((Dual.div (Dual.mk 6 10) (Dual.mk 3 2)).value =
       (Dual.mk (6 : ℚ) 10).value / (Dual.mk (3 : ℚ) 2).value ∧
     (Dual.div (Dual.mk 6 10) (Dual.mk 3 2)).derivative =
       ((Dual.mk (6 : ℚ) 10).derivative * (Dual.mk (3 : ℚ) 2).value
         - (Dual.mk (6 : ℚ) 10).value * (Dual.mk (3 : ℚ) 2).derivative)
         / (Dual.mk (3 : ℚ) 2).value ^ 2 ∧
     Expr.v ratOps (Expr.div (Expr.leaf (Dual2.mk 6 10)) (Expr.leaf (Dual2.mk 3 2))) =
       (Dual2.mk (6 : ℚ) 10).value / (Dual2.mk (3 : ℚ) 2).value ∧
     Expr.dv ratOps (Expr.div (Expr.leaf (Dual2.mk 6 10)) (Expr.leaf (Dual2.mk 3 2))) =
       ((Dual2.mk (6 : ℚ) 10).derivative * (Dual2.mk (3 : ℚ) 2).value
         - (Dual2.mk (6 : ℚ) 10).value * (Dual2.mk (3 : ℚ) 2).derivative)
         / (Dual2.mk (3 : ℚ) 2).value ^ 2) :=
  ⟨by decide, by decide,
   quotient_rule ratOps (Dual.mk 6 10) (Dual.mk 3 2) (Dual2.mk 6 10) (Dual2.mk 3 2)
     (by decide) (by decide)⟩

/-- Claim C10: the lazy variant's assignment-from-expression writes the
value field from `expr.v()` before evaluating `expr.dv()`, so a
self-referencing assignment `x = x * x` starting from state `(v, dv)`
yields value `v * v` and derivative `2 * (v * v) * dv` (the derivative is
computed against the already-updated value, not the product-rule result
over the old state). -/
theorem assign_writes_value_first {T : Type} [Field T] (S : ScalarOps T)
    (i : Nat) (e : ExprR T) (env : Env T) (a d : T) :
    (assignExprR S i e env i).value = (ExprR.vM S e env).1 ∧
    (assignExprR S i e env i).derivative =
      (ExprR.dvM S e
        (fun j => if j = i then ⟨(ExprR.vM S e env).1, (env i).derivative⟩ else env j)).1 ∧
    (assignExprR S 0 (ExprR.mul (ExprR.ref 0) (ExprR.ref 0)) (fun _ => ⟨a, d⟩) 0).value
      = a * a ∧
    (assignExprR S 0 (ExprR.mul (ExprR.ref 0) (ExprR.ref 0)) (fun _ => ⟨a, d⟩) 0).derivative
      = 2 * (a * a) * d := by
  refine ⟨by simp [assignExprR], by simp [assignExprR], ?_, ?_⟩ <;>
    simp [assignExprR, ExprR.vM, ExprR.dvM] <;> ring

/-- Claim C1: the eager `pow` implements the power rule
`derivative = k * pow(v, k-1) * dv`, but the lazy `Power` node's `dv()` as
written computes `k * pow(r.v(), k - 1 * r.dv())` — the factor `r.dv()`
sits inside the exponent — so at the operand `(3, 2)` with exponent `k = 3`
the eager variant yields `3 * 3^2 * 2 = 54` while the lazy node yields
`3 * 3^(3-2) = 9`: the lazy node does not compute the claimed (and
intended) derivative. -/
theorem power_node_literal_mismatch :
    (Dual.dpow ratOps (Dual.mk 3 2) 3).value = ratPow 3 3 ∧
    (Dual.dpow ratOps (Dual.mk 3 2) 3).derivative = 3 * ratPow 3 (3 - 1) * 2 ∧
    (Dual.dpow ratOps (Dual.mk 3 2) 3).derivative = 54 ∧
    Expr.v ratOps (Expr.power (Expr.leaf (Dual2.mk 3 2)) 3) = ratPow 3 3 ∧
    Expr.dv ratOps (Expr.power (Expr.leaf (Dual2.mk 3 2)) 3) = 9 ∧
    Expr.dv ratOps (Expr.power (Expr.leaf (Dual2.mk 3 2)) 3) ≠
      (Dual.dpow ratOps (Dual.mk 3 2) 3).derivative := by
  refine ⟨rfl, rfl, ?_, rfl, ?_, ?_⟩ <;>
    norm_num [Dual.dpow, Expr.dv, Expr.v, ratOps, ratPow, Rat.num_ofNat]

/-- Claim C2 (amended): for every expression containing no `Power` node,
evaluating the tree through the lazy variant's `v()`/`dv()` queries agrees
exactly with evaluating the algebraically identical expression through the
eager variant's operators on operands with equal components. -/
theorem lazy_eager_equiv {T : Type} [Field T] (S : ScalarOps T)
    (e : Expr T) (h : e.powFree = true) :
    (Expr.evalEager S e).value = Expr.v S e ∧
    (Expr.evalEager S e).derivative = Expr.dv S e := by
  induction e with
  | leaf d => exact ⟨rfl, rfl⟩
  | add l r ihl ihr =>
      simp only [Expr.powFree, Bool.and_eq_true] at h
      obtain ⟨hv1, hd1⟩ := ihl h.1
      obtain ⟨hv2, hd2⟩ := ihr h.2
      simp [Expr.evalEager, Expr.v, Expr.dv, Dual.add, hv1, hd1, hv2, hd2]
  | subt l r ihl ihr =>
      simp only [Expr.powFree, Bool.and_eq_true] at h
      obtain ⟨hv1, hd1⟩ := ihl h.1
      obtain ⟨hv2, hd2⟩ := ihr h.2
      simp [Expr.evalEager, Expr.v, Expr.dv, Dual.sub, hv1, hd1, hv2, hd2]
  | mul l r ihl ihr =>
      simp only [Expr.powFree, Bool.and_eq_true] at h
      obtain ⟨hv1, hd1⟩ := ihl h.1
      obtain ⟨hv2, hd2⟩ := ihr h.2
      simp [Expr.evalEager, Expr.v, Expr.dv, Dual.mul, hv1, hd1, hv2, hd2]
  | div l r ihl ihr =>
      simp only [Expr.powFree, Bool.and_eq_true] at h
      obtain ⟨hv1, hd1⟩ := ihl h.1
      obtain ⟨hv2, hd2⟩ := ihr h.2
      simp [Expr.evalEager, Expr.v, Expr.dv, Dual.div, hv1, hd1, hv2, hd2]
  | sine r ih =>
      obtain ⟨hv1, hd1⟩ := ih h
      simp [Expr.evalEager, Expr.v, Expr.dv, Dual.dsin, hv1, hd1]
  | cosine r ih =>
      obtain ⟨hv1, hd1⟩ := ih h
      simp [Expr.evalEager, Expr.v, Expr.dv, Dual.dcos, hv1, hd1]
  | expo r ih =>
      obtain ⟨hv1, hd1⟩ := ih h
      simp [Expr.evalEager, Expr.v, Expr.dv, Dual.dexp, hv1, hd1]
  | loga r ih =>
      obtain ⟨hv1, hd1⟩ := ih h
      simp [Expr.evalEager, Expr.v, Expr.dv, Dual.dlog, hv1, hd1]
  | power r k ih => simp [Expr.powFree] at h
  | absol r ih =>
      obtain ⟨hv1, hd1⟩ := ih h
      simp [Expr.evalEager, Expr.v, Expr.dv, Dual.dabs, hv1, hd1]

/-- Counterexample to C2 as stated: for the expression `pow(x, 3)` over the
operand `x = (2, 2)` the eager evaluation yields derivative `24` while the
lazy `Power` node's `dv()` yields `6`, so value/derivative equality fails
for expressions involving `pow`. -/
theorem lazy_eager_equiv_power_cex :
    (Expr.evalEager ratOps (Expr.power (Expr.leaf (Dual2.mk 2 2)) 3)).value
      = Expr.v ratOps (Expr.power (Expr.leaf (Dual2.mk 2 2)) 3) ∧
    (Expr.evalEager ratOps (Expr.power (Expr.leaf (Dual2.mk 2 2)) 3)).derivative = 24 ∧
    Expr.dv ratOps (Expr.power (Expr.leaf (Dual2.mk 2 2)) 3) = 6 ∧
    (Expr.evalEager ratOps (Expr.power (Expr.leaf (Dual2.mk 2 2)) 3)).derivative ≠
      Expr.dv ratOps (Expr.power (Expr.leaf (Dual2.mk 2 2)) 3) := by
  refine ⟨rfl, ?_, ?_, ?_⟩ <;>
    norm_num [Expr.evalEager, Dual.dpow, Expr.dv, Expr.v, ratOps, ratPow, Rat.num_ofNat]

/-- Witness for the amended C2 at the concrete power-free expression
`(6, 10) * (3, 5)` of the repository's multiplication test. -/
theorem lazy_eager_equiv_witness :
    Expr.powFree (Expr.mul (Expr.leaf (Dual2.mk (6 : ℚ) 10)) (Expr.leaf (Dual2.mk 3 5)))
      = true ∧
    ((Expr.evalEager ratOps
        (Expr.mul (Expr.leaf (Dual2.mk (6 : ℚ) 10)) (Expr.leaf (Dual2.mk 3 5)))).value
       = Expr.v ratOps
           (Expr.mul (Expr.leaf (Dual2.mk (6 : ℚ) 10)) (Expr.leaf (Dual2.mk 3 5))) ∧
     (Expr.evalEager ratOps
        (Expr.mul (Expr.leaf (Dual2.mk (6 : ℚ) 10)) (Expr.leaf (Dual2.mk 3 5)))).derivative
       = Expr.dv ratOps
           (Expr.mul (Expr.leaf (Dual2.mk (6 : ℚ) 10)) (Expr.leaf (Dual2.mk 3 5)))) :=
  ⟨rfl, lazy_eager_equiv ratOps
     (Expr.mul (Expr.leaf (Dual2.mk (6 : ℚ) 10)) (Expr.leaf (Dual2.mk 3 5))) rfl⟩

/-- Claim C6: when the scalar `abs` is the absolute value, `abs` in both
variants returns value `|v|` and derivative `dv * v / |v|` for any operand
`(v, dv)` with `v ≠ 0`; and for `x = (-5.32, 1)` the derivative of
`abs(x*x - 2.3)` equals `2 * x.value * (x.value^2 - 2.3) / |x.value^2 - 2.3|`
in both variants. -/
theorem abs_rule (S : ScalarOps ℚ) (habs : ∀ q, S.abs q = |q|)
    (a d : ℚ) (hv : a ≠ 0) :
    (Dual.dabs S (Dual.mk a d)).value = |a| ∧
    (Dual.dabs S (Dual.mk a d)).derivative = d * a / |a| ∧
    Expr.v S (Expr.absol (Expr.leaf (Dual2.mk a d))) = |a| ∧
    Expr.dv S (Expr.absol (Expr.leaf (Dual2.mk a d))) = d * a / |a| ∧
    (Dual.dabs S (Dual.sub (Dual.mul (Dual.mk (-5.32) 1) (Dual.mk (-5.32) 1))
        (Dual.ofValue 2.3))).derivative
      = 2 * (-5.32) * ((-5.32 : ℚ) ^ 2 - 2.3) / |(-5.32 : ℚ) ^ 2 - 2.3| ∧
    Expr.dv S (Expr.absol (Expr.subt
        (Expr.mul (Expr.leaf (Dual2.mk (-5.32) 1)) (Expr.leaf (Dual2.mk (-5.32) 1)))
        (Expr.leaf (Dual2.ofValue 2.3))))
      = 2 * (-5.32) * ((-5.32 : ℚ) ^ 2 - 2.3) / |(-5.32 : ℚ) ^ 2 - 2.3| := by
  refine ⟨by simp [Dual.dabs, habs], by simp [Dual.dabs, habs],
    by simp [Expr.v, habs], by simp [Expr.dv, Expr.v, habs], ?_, ?_⟩
  · simp only [Dual.dabs, Dual.sub, Dual.mul, Dual.ofValue, habs]
    rw [show ((-5.32 : ℚ)) * (-5.32) - 2.3 = 26.0024 by norm_num,
        show ((-5.32 : ℚ)) ^ 2 - 2.3 = 26.0024 by norm_num,
        abs_of_pos (show (0 : ℚ) < 26.0024 by norm_num)]
    norm_num
  · simp only [Expr.dv, Expr.v, Dual2.ofValue, habs]
    rw [show ((-5.32 : ℚ)) * (-5.32) - 2.3 = 26.0024 by norm_num,
        show ((-5.32 : ℚ)) ^ 2 - 2.3 = 26.0024 by norm_num,
        abs_of_pos (show (0 : ℚ) < 26.0024 by norm_num)]
    norm_num

/-- Witness for C6 at the scenario operand `x = (-5.32, 1)` with the exact
absolute value as the scalar `abs`. -/
theorem abs_rule_witness :
    (∀ q : ℚ, ratOps.abs q = |q|) ∧ (-5.32 : ℚ) ≠ 0 ∧
    ((Dual.dabs ratOps (Dual.mk (-5.32) 1)).value = |(-5.32 : ℚ)| ∧
     (Dual.dabs ratOps (Dual.mk (-5.32) 1)).derivative = 1 * (-5.32) / |(-5.32 : ℚ)| ∧
     Expr.v ratOps (Expr.absol (Expr.leaf (Dual2.mk (-5.32) 1))) = |(-5.32 : ℚ)| ∧
     Expr.dv ratOps (Expr.absol (Expr.leaf (Dual2.mk (-5.32) 1)))
       = 1 * (-5.32) / |(-5.32 : ℚ)| ∧
     (Dual.dabs ratOps (Dual.sub (Dual.mul (Dual.mk (-5.32) 1) (Dual.mk (-5.32) 1))
         (Dual.ofValue 2.3))).derivative
       = 2 * (-5.32) * ((-5.32 : ℚ) ^ 2 - 2.3) / |(-5.32 : ℚ) ^ 2 - 2.3| ∧
     Expr.dv ratOps (Expr.absol (Expr.subt
         (Expr.mul (Expr.leaf (Dual2.mk (-5.32) 1)) (Expr.leaf (Dual2.mk (-5.32) 1)))
         (Expr.leaf (Dual2.ofValue 2.3))))
       = 2 * (-5.32) * ((-5.32 : ℚ) ^ 2 - 2.3) / |(-5.32 : ℚ) ^ 2 - 2.3|) :=
  ⟨fun _ => rfl, by norm_num,
   abs_rule ratOps (fun _ => rfl) (-5.32) 1 (by norm_num)⟩

/-- Claim C7: in both variants the stream inserter appends exactly
`"(" ++ value ++ ", " ++ derivative ++ ")"` to the stream — parenthesized,
single comma-space separator — and a dual number `(7.53, 2.99)` whose
scalars render as `7.53` and `2.99` renders as the string `(7.53, 2.99)`. -/
theorem display_format (emit : ℚ → String) (os : String) (x : Dual ℚ) (y : Dual2 ℚ)
    (h1 : emit 7.53 = "7.53") (h2 : emit 2.99 = "2.99") :
    Dual.ostreamInsert emit os x
      = os ++ ("(" ++ emit x.value ++ ", " ++ emit x.derivative ++ ")") ∧
    Dual2.ostreamInsert emit os y
      = os ++ ("(" ++ emit y.value ++ ", " ++ emit y.derivative ++ ")") ∧
    Dual.ostreamInsert emit "" (Dual.mk 7.53 2.99) = "(7.53, 2.99)" ∧
    Dual2.ostreamInsert emit "" (Dual2.mk 7.53 2.99) = "(7.53, 2.99)" := by
  refine ⟨?_, ?_, ?_, ?_⟩ <;>
    simp [Dual.ostreamInsert, Dual2.ostreamInsert, h1, h2, String.append_assoc]

/-- Witness for C7 with a concrete scalar formatter rendering `7.53` and
`2.99` the way the C++ stream renders those `double`s. -/
theorem display_format_witness :
    emitW 7.53 = "7.53" ∧ emitW 2.99 = "2.99" ∧
    (Dual.ostreamInsert emitW "os: " (Dual.mk 7.53 2.99)
       = "os: " ++ ("(" ++ emitW (Dual.mk (7.53 : ℚ) 2.99).value ++ ", "
           ++ emitW (Dual.mk (7.53 : ℚ) 2.99).derivative ++ ")") ∧
     Dual2.ostreamInsert emitW "os: " (Dual2.mk 7.53 2.99)
       = "os: " ++ ("(" ++ emitW (Dual2.mk (7.53 : ℚ) 2.99).value ++ ", "
           ++ emitW (Dual2.mk (7.53 : ℚ) 2.99).derivative ++ ")") ∧
     Dual.ostreamInsert emitW "" (Dual.mk 7.53 2.99) = "(7.53, 2.99)" ∧
     Dual2.ostreamInsert emitW "" (Dual2.mk 7.53 2.99) = "(7.53, 2.99)") :=
  ⟨by norm_num [emitW], by norm_num [emitW],
   display_format emitW "os: " (Dual.mk 7.53 2.99) (Dual2.mk 7.53 2.99)
     (by norm_num [emitW]) (by norm_num [emitW])⟩

/-- Every `v()` query leaves the environment of referenced `Dual2` objects
unchanged. -/
theorem vM_env {T : Type} [Field T] (S : ScalarOps T) (e : ExprR T) (env : Env T) :
    (ExprR.vM S e env).2 = env := by
  induction e generalizing env with
  | ref i => rfl
  | add l r ihl ihr => simp [ExprR.vM, ihl, ihr]
  | subt l r ihl ihr => simp [ExprR.vM, ihl, ihr]
  | mul l r ihl ihr => simp [ExprR.vM, ihl, ihr]
  | div l r ihl ihr => simp [ExprR.vM, ihl, ihr]
  | sine r ih => simp [ExprR.vM, ih]
  | cosine r ih => simp [ExprR.vM, ih]
  | expo r ih => simp [ExprR.vM, ih]
  | loga r ih => simp [ExprR.vM, ih]
  | power r k ih => simp [ExprR.vM, ih]
  | absol r ih => simp [ExprR.vM, ih]

/-- Every `dv()` query leaves the environment of referenced `Dual2` objects
unchanged. -/
theorem dvM_env {T : Type} [Field T] (S : ScalarOps T) (e : ExprR T) (env : Env T) :
    (ExprR.dvM S e env).2 = env := by
  induction e generalizing env with
  | ref i => rfl
  | add l r ihl ihr => simp [ExprR.dvM, ihl, ihr]
  | subt l r ihl ihr => simp [ExprR.dvM, ihl, ihr]
  | mul l r ihl ihr => simp [ExprR.dvM, vM_env, ihl, ihr]
  | div l r ihl ihr => simp [ExprR.dvM, vM_env, ihl, ihr]
  | sine r ih => simp [ExprR.dvM, vM_env, ih]
  | cosine r ih => simp [ExprR.dvM, vM_env, ih]
  | expo r ih => simp [ExprR.dvM, vM_env, ih]
  | loga r ih => simp [ExprR.dvM, vM_env, ih]
  | power r k ih => simp [ExprR.dvM, vM_env, ih]
  | absol r ih => simp [ExprR.dvM, vM_env, ih]

/-- Claim C8: the lazy queries are pure — `v()` and `dv()` leave the
states of the referenced operands unchanged, and calling either query a
second time (on the environment the first call leaves behind) yields the
same result. -/
theorem lazy_queries_pure {T : Type} [Field T] (S : ScalarOps T)
    (e : ExprR T) (env : Env T) :
    (ExprR.vM S e env).2 = env ∧ (ExprR.dvM S e env).2 = env ∧
    (ExprR.vM S e (ExprR.vM S e env).2).1 = (ExprR.vM S e env).1 ∧
    (ExprR.dvM S e (ExprR.dvM S e env).2).1 = (ExprR.dvM S e env).1 :=
  ⟨vM_env S e env, dvM_env S e env,
   by rw [vM_env], by rw [dvM_env]⟩

end Autodiff
